import Mathlib

/-!
# Renderer lifecycle and draw-call transform logic

A shallow embedding of `Source/Engine/Renderer/Renderer.cpp` (namespace `neu`).

* Opaque backend handles (`SDL_Window*`, `SDL_GLContext`, `SDL_Renderer*`,
  `SDL_Texture*`) are `Option Nat`, with `none` standing for `nullptr`.
* `float` values of the position-only and the rotation + scale + flip overloads of
  `DrawTexture` are rationals and the arithmetic on them is exact.
* `float` values of the source-region overload of `DrawTexture` are IEEE 754 binary32
  values (`F32`): every multiplication and subtraction is the exact result rounded to
  nearest, ties to even, with infinities, NaN and signed zeros.
* Every member function returns, next to its C++ return value and the updated
  object, the list of calls it makes into SDL / SDL_ttf / OpenGL / the logger,
  in program order.  What the backend answers is read from a `Backend` record.
-/

namespace neu

/-! ## Values shared with the backend -/

/-- A nullable opaque pointer; `none` is `nullptr`. -/
abbrev Handle := Option Nat

/-- The two-component float vector returned by `Texture::GetSize`. -/
structure vec2 where
  x : ℚ
  y : ℚ
  deriving DecidableEq, Repr

/-- The rectangle type of SDL handed to the render calls. -/
structure SDL_FRect where
  x : ℚ
  y : ℚ
  w : ℚ
  h : ℚ
  deriving DecidableEq, Repr

/-- The point type of SDL (the optional rotation centre). -/
structure SDL_FPoint where
  x : ℚ
  y : ℚ
  deriving DecidableEq, Repr

/-- The flip modes of SDL. -/
inductive SDL_FlipMode where
  | SDL_FLIP_NONE
  | SDL_FLIP_HORIZONTAL
  | SDL_FLIP_VERTICAL
  deriving DecidableEq, Repr

/-- The context attributes of SDL that `CreateWindow` sets. -/
inductive SDL_GLAttr where
  | SDL_GL_CONTEXT_MAJOR_VERSION
  | SDL_GL_CONTEXT_MINOR_VERSION
  | SDL_GL_CONTEXT_PROFILE_MASK
  | SDL_GL_DOUBLEBUFFER
  | SDL_GL_ACCELERATED_VISUAL
  deriving DecidableEq, Repr

/-- Init flag of the SDL video subsystem (SDL3 header value). -/
def SDL_INIT_VIDEO : Nat := 0x20

/-- Window flag: fullscreen (SDL3 header value). -/
def SDL_WINDOW_FULLSCREEN : Nat := 0x1

/-- Window flag: usable with an OpenGL context (SDL3 header value). -/
def SDL_WINDOW_OPENGL : Nat := 0x2

/-- Profile mask value for the compatibility profile (SDL3 header value). -/
def SDL_GL_CONTEXT_PROFILE_COMPATIBILITY : Int := 0x2

/-- OpenGL capability: depth test. -/
def GL_DEPTH_TEST : Nat := 0x0B71

/-- OpenGL comparison function: less. -/
def GL_LESS : Nat := 0x0201

/-- One call out of the renderer, with the arguments it is made with. -/
inductive Call where
  | SDL_Init (flags : Nat)
  | TTF_Init
  | SDL_GetError
  | LOG_ERROR (fmt : String) (arg : String)
  | TTF_Quit
  | SDL_GL_DestroyContext (context : Handle)
  | SDL_DestroyWindow (window : Handle)
  | SDL_Quit
  | SDL_CreateWindow (title : String) (w h : Int) (flags : Nat)
  | SDL_GL_SetAttribute (attr : SDL_GLAttr) (value : Int)
  | SDL_GL_SetSwapInterval (interval : Int)
  | SDL_GL_CreateContext (window : Handle)
  | gladLoadGL
  | glViewport (x y width height : Int)
  | glEnable (cap : Nat)
  | glDepthFunc (func : Nat)
  | SDL_RenderTexture (renderer texture : Handle) (srcrect : Option SDL_FRect)
      (dstrect : SDL_FRect)
  | SDL_RenderTextureRotated (renderer texture : Handle) (srcrect : Option SDL_FRect)
      (dstrect : SDL_FRect) (angle : ℚ) (center : Option SDL_FPoint) (flip : SDL_FlipMode)
  deriving DecidableEq, Repr

/-- What the backend answers to the calls whose result the renderer reads. -/
structure Backend where
  SDL_Init : Nat → Bool
  TTF_Init : Bool
  SDL_GetError : String
  SDL_CreateWindow : String → Int → Int → Nat → Handle
  SDL_GL_CreateContext : Handle → Handle

/-! ## Texture -/

/-- Modelled from the spec: `Texture` (Texture.h is not part of the sources at hand) exposes a
read-only natural size and an opaque GPU handle, `m_texture`. -/
structure Texture where
  m_texture : Handle
  size : vec2
  deriving DecidableEq, Repr

/-- Modelled from the spec: `Texture::GetSize`, the natural size accessor of a texture. -/
def Texture.GetSize (texture : Texture) : vec2 := texture.size

/-! ## Renderer -/

/-- The data members of `Renderer` that Renderer.cpp reads or writes. -/
structure Renderer where
  m_window : Handle
  m_context : Handle
  m_renderer : Handle
  m_width : Int
  m_height : Int
  deriving DecidableEq, Repr

/-- Outcome of a member function: C++ return value, object afterwards, calls made. -/
structure Result (α : Type) where
  ret : α
  self : Renderer
  calls : List Call

/-- Embedding of `Renderer::Initialize` (Renderer.cpp lines 6 to 20). -/
def Renderer.Initialize (B : Backend) (self : Renderer) : Result Bool :=
  if !B.SDL_Init SDL_INIT_VIDEO then
    ⟨false, self,
      [Call.SDL_Init SDL_INIT_VIDEO, Call.SDL_GetError,
       Call.LOG_ERROR "SDL_Init Error: \x7b\x7d" B.SDL_GetError]⟩
  else if !B.TTF_Init then
    ⟨false, self,
      [Call.SDL_Init SDL_INIT_VIDEO, Call.TTF_Init, Call.SDL_GetError,
       Call.LOG_ERROR "TTF_Init Error: \x7b\x7d" B.SDL_GetError]⟩
  else
    ⟨true, self, [Call.SDL_Init SDL_INIT_VIDEO, Call.TTF_Init]⟩

/-- Embedding of `Renderer::Shutdown` (Renderer.cpp lines 22 to 27). -/
def Renderer.Shutdown (self : Renderer) : Result Unit :=
  ⟨(), self,
    [Call.TTF_Quit,
     Call.SDL_GL_DestroyContext self.m_context,
     Call.SDL_DestroyWindow self.m_window,
     Call.SDL_Quit]⟩

/-- The flags argument `CreateWindow` passes to `SDL_CreateWindow`. -/
def windowFlags (fullscreen : Bool) : Nat :=
  SDL_WINDOW_OPENGL ||| (if fullscreen then SDL_WINDOW_FULLSCREEN else 0)

/-- Embedding of `Renderer::CreateWindow` (Renderer.cpp lines 30 to 65). -/
def Renderer.CreateWindow (B : Backend) (self : Renderer) (name : String)
    (width height : Int) (fullscreen : Bool) : Result Bool :=
  let s1 : Renderer := { self with m_width := width, m_height := height }
  let s2 : Renderer :=
    { s1 with m_window := B.SDL_CreateWindow name width height (windowFlags fullscreen) }
  let t1 : List Call := [Call.SDL_CreateWindow name width height (windowFlags fullscreen)]
  if s2.m_window = none then
    ⟨false, s2,
      t1 ++ [Call.SDL_GetError,
             Call.LOG_ERROR "SDL_CreateWindow Error: \x7b\x7d" B.SDL_GetError,
             Call.SDL_Quit]⟩
  else
    let t2 : List Call := t1 ++
      [Call.SDL_GL_SetAttribute SDL_GLAttr.SDL_GL_CONTEXT_MAJOR_VERSION 4,
       Call.SDL_GL_SetAttribute SDL_GLAttr.SDL_GL_CONTEXT_MINOR_VERSION 6,
       Call.SDL_GL_SetAttribute SDL_GLAttr.SDL_GL_CONTEXT_PROFILE_MASK
         SDL_GL_CONTEXT_PROFILE_COMPATIBILITY,
       Call.SDL_GL_SetAttribute SDL_GLAttr.SDL_GL_DOUBLEBUFFER 1,
       Call.SDL_GL_SetAttribute SDL_GLAttr.SDL_GL_ACCELERATED_VISUAL 1,
       Call.SDL_GL_SetSwapInterval 1,
       Call.SDL_GL_CreateContext s2.m_window]
    let s3 : Renderer := { s2 with m_context := B.SDL_GL_CreateContext s2.m_window }
    if s3.m_context = none then
      ⟨false, s3,
        t2 ++ [Call.SDL_GetError,
               Call.LOG_ERROR "SDL_CreateWindow Error: \x7b\x7d" B.SDL_GetError,
               Call.SDL_Quit]⟩
    else
      ⟨true, s3,
        t2 ++ [Call.gladLoadGL,
               Call.glViewport 0 0 width height,
               Call.glEnable GL_DEPTH_TEST,
               Call.glDepthFunc GL_LESS]⟩

/-- Embedding of `Renderer::DrawTexture(Texture&, float, float)`
(Renderer.cpp lines 83 to 96). -/
def Renderer.DrawTexture_xy (self : Renderer) (texture : Texture) (x y : ℚ) : Result Unit :=
  let size := texture.GetSize
  let destRect : SDL_FRect := { x := x, y := y, w := size.x, h := size.y }
  ⟨(), self, [Call.SDL_RenderTexture self.m_renderer texture.m_texture none destRect]⟩

/-- Embedding of `Renderer::DrawTexture(Texture&, float, float, float, float, bool)`
(Renderer.cpp lines 98 to 115). -/
def Renderer.DrawTexture_rot (self : Renderer) (texture : Texture) (x y angle scale : ℚ)
    (flipH : Bool) : Result Unit :=
  let size := texture.GetSize
  let w := size.x * scale
  let h := size.y * scale
  let destRect : SDL_FRect := { w := w, h := h, x := x - w * (1 / 2), y := y - h * (1 / 2) }
  ⟨(), self,
    [Call.SDL_RenderTextureRotated self.m_renderer texture.m_texture none destRect angle none
      (if flipH then SDL_FlipMode.SDL_FLIP_HORIZONTAL else SDL_FlipMode.SDL_FLIP_NONE)]⟩

/-! ## binary32 arithmetic -/

/-- An IEEE 754 binary32 value: a finite number given by its sign bit and its magnitude
(so the two zeros are distinct), an infinity with its sign bit, or a NaN.  The magnitude of
a binary32 number is non-negative and left unchanged by `F32.round`. -/
inductive F32 where
  | finite (neg : Bool) (mag : ℚ)
  | inf (neg : Bool)
  | nan
  deriving DecidableEq, Repr

/-- Negation in binary32: flips the sign bit. -/
def F32.neg : F32 → F32
  | F32.finite s m => F32.finite (!s) m
  | F32.inf s => F32.inf (!s)
  | F32.nan => F32.nan

namespace binary32

/-- The rectangle type of SDL, with binary32 fields. -/
structure SDL_FRect where
  x : F32
  y : F32
  w : F32
  h : F32
  deriving DecidableEq, Repr

/-- The point type of SDL (the optional rotation centre), with binary32 fields. -/
structure SDL_FPoint where
  x : F32
  y : F32
  deriving DecidableEq, Repr

/-- The rotated draw call of SDL with the binary32 arguments it is made with. -/
inductive Call where
  | SDL_RenderTextureRotated (renderer texture : Handle) (srcrect : Option SDL_FRect)
      (dstrect : SDL_FRect) (angle : F32) (center : Option SDL_FPoint) (flip : SDL_FlipMode)
  deriving DecidableEq, Repr

/-- Outcome of a member function: C++ return value, object afterwards, calls made. -/
structure Result (α : Type) where
  ret : α
  self : Renderer
  calls : List Call

end binary32

/-- The call creates a graphics context. -/
def Call.isCreateContext : Call → Bool
  | Call.SDL_GL_CreateContext _ => true
  | _ => false

/-- The call destroys a graphics context. -/
def Call.isDestroyContext : Call → Bool
  | Call.SDL_GL_DestroyContext _ => true
  | _ => false

/-- The call writes to the error log. -/
def Call.isLogError : Call → Bool
  | Call.LOG_ERROR _ _ => true
  | _ => false

/-- The call sets the viewport or touches the depth test. -/
def Call.isViewportOrDepth : Call → Bool
  | Call.glViewport _ _ _ _ => true
  | Call.glEnable _ => true
  | Call.glDepthFunc _ => true
  | _ => false

/-- The call belongs to the part of `CreateWindow` after window creation:
attributes, swap interval, context creation, function loading, viewport, depth test. -/
def Call.isPastWindow : Call → Bool
  | Call.SDL_GL_SetAttribute _ _ => true
  | Call.SDL_GL_SetSwapInterval _ => true
  | Call.SDL_GL_CreateContext _ => true
  | Call.gladLoadGL => true
  | Call.glViewport _ _ _ _ => true
  | Call.glEnable _ => true
  | Call.glDepthFunc _ => true
  | _ => false

/-- One `CreateWindow` call: its arguments and the backend it runs against. -/
structure Attempt where
  backend : Backend
  name : String
  width : Int
  height : Int
  fullscreen : Bool

/-- How a `CreateWindow` call ends, as decided by the backend alone. -/
inductive Outcome where
  | windowFailed
  | contextFailed
  | succeeded
  deriving DecidableEq, Repr

/-- The outcome of an attempt, read off the backend answers. -/
def Attempt.outcome (a : Attempt) : Outcome :=
  match a.backend.SDL_CreateWindow a.name a.width a.height (windowFlags a.fullscreen) with
  | none => Outcome.windowFailed
  | some w =>
    match a.backend.SDL_GL_CreateContext (some w) with
    | none => Outcome.contextFailed
    | some _ => Outcome.succeeded

/-- The renderer after one `CreateWindow` call. -/
def Renderer.attempt (self : Renderer) (a : Attempt) : Renderer :=
  (self.CreateWindow a.backend a.name a.width a.height a.fullscreen).self

/-- The renderer after a sequence of `CreateWindow` calls, first to last. -/
def Renderer.attempts (self : Renderer) (as : List Attempt) : Renderer :=
  as.foldl Renderer.attempt self

/-- The data-model invariant: the context handle is non-null only if the window handle is. -/
def Renderer.ContextNeedsWindow (self : Renderer) : Prop :=
  self.m_context ≠ none → self.m_window ≠ none

instance (self : Renderer) : Decidable self.ContextNeedsWindow := by
  unfold Renderer.ContextNeedsWindow; infer_instance

/-- A sequence of outcomes that ends in a success followed by one or more window failures. -/
def StaleContext (os : List Outcome) : Prop :=
  ∃ (pre : List Outcome) (k : Nat),
    os = pre ++ Outcome.succeeded :: List.replicate (k + 1) Outcome.windowFailed

/-- A sequence of outcomes that ends in a success followed by zero or more window failures. -/
def LiveContext (os : List Outcome) : Prop :=
  ∃ (pre : List Outcome) (k : Nat),
    os = pre ++ Outcome.succeeded :: List.replicate k Outcome.windowFailed

/-- A backend on which everything succeeds, handing out window 1 and context 2. -/
def okBackend : Backend :=
  { SDL_Init := fun _ => true, TTF_Init := true, SDL_GetError := "",
    SDL_CreateWindow := fun _ _ _ _ => some 1, SDL_GL_CreateContext := fun _ => some 2 }

/-- A backend on which window creation fails. -/
def noWindowBackend : Backend :=
  { okBackend with SDL_GetError := "no window", SDL_CreateWindow := fun _ _ _ _ => none }

/-- A backend on which window creation succeeds and context creation fails. -/
def noContextBackend : Backend :=
  { okBackend with SDL_GetError := "no context", SDL_GL_CreateContext := fun _ => none }

/-- A backend on which the video subsystem fails to initialise. -/
def noVideoBackend : Backend :=
  { okBackend with SDL_Init := fun _ => false, SDL_GetError := "no video" }

/-- A renderer with every handle null. -/
def freshRenderer : Renderer :=
  { m_window := none, m_context := none, m_renderer := none, m_width := 0, m_height := 0 }

/-- A texture of natural size 64 by 64. -/
def tex64 : Texture := { m_texture := some 7, size := { x := 64, y := 64 } }

/-! ## Textured-quad draws -/

/-- C1: the rotation + scale + flip overload of `DrawTexture` hands the backend exactly one
rotated-draw call, without source rectangle, whose destination rectangle has size
natural size times scale and has `(x, y)` as its centre. -/
theorem DrawTexture_rot_centre (self : Renderer) (texture : Texture) (x y angle scale : ℚ)
    (flipH : Bool) :
    ∃ (d : SDL_FRect) (flip : SDL_FlipMode),
      (self.DrawTexture_rot texture x y angle scale flipH).calls =
        [Call.SDL_RenderTextureRotated self.m_renderer texture.m_texture none d angle none flip]
      ∧ d.w = texture.GetSize.x * scale
      ∧ d.h = texture.GetSize.y * scale
      ∧ d.x + d.w / 2 = x
      ∧ d.y + d.h / 2 = y := by
  refine ⟨_, _, rfl, rfl, rfl, ?_, ?_⟩ <;> simp only [] <;> ring

/-- C2 (as stated, refuted): on a 64 by 64 texture, `DrawTexture(tex, 100, 100, 90, 2, true)`
does not submit the destination rectangle `{68, 68, 128, 128}`; its top-left is `(36, 36)`. -/
theorem DrawTexture_rot_scenario_not_68 :
    (freshRenderer.DrawTexture_rot tex64 100 100 90 2 true).calls ≠
      [Call.SDL_RenderTextureRotated freshRenderer.m_renderer tex64.m_texture none
        { x := 68, y := 68, w := 128, h := 128 } 90 none SDL_FlipMode.SDL_FLIP_HORIZONTAL] := by
  simp only [Renderer.DrawTexture_rot, Texture.GetSize, tex64]
  norm_num

/-- C2 (amended): on any texture of natural size 64 by 64,
`DrawTexture(tex, 100, 100, 90, 2, true)` submits one rotated-draw call with destination
rectangle `{36, 36, 128, 128}`, rotation 90, no source rectangle, no explicit pivot and a
horizontal flip. -/
theorem DrawTexture_rot_scenario (self : Renderer) (handle : Handle) :
    (self.DrawTexture_rot { m_texture := handle, size := { x := 64, y := 64 } }
        100 100 90 2 true).calls =
      [Call.SDL_RenderTextureRotated self.m_renderer handle none
        { x := 36, y := 36, w := 128, h := 128 } 90 none SDL_FlipMode.SDL_FLIP_HORIZONTAL] := by
  simp only [Renderer.DrawTexture_rot, Texture.GetSize]
  norm_num

/-- C4: the position-only overload of `DrawTexture` hands the backend exactly one plain
draw call (no rotation, no flip), without source rectangle, whose destination rectangle is
`{x, y, w, h}` for the natural size `(w, h)` of the texture. -/
theorem DrawTexture_xy_exact (self : Renderer) (texture : Texture) (x y : ℚ) :
    (self.DrawTexture_xy texture x y).calls =
      [Call.SDL_RenderTexture self.m_renderer texture.m_texture none
        { x := x, y := y, w := texture.GetSize.x, h := texture.GetSize.y }] := by
  rfl

/-! ## Lifecycle: `Initialize`, `Shutdown`, `CreateWindow` -/

/-- C6: `Shutdown` issues exactly four backend calls, each once, in the order text-subsystem
quit, destroy graphics context, destroy window, windowing-subsystem quit. -/
theorem Shutdown_order (self : Renderer) :
    self.Shutdown.calls =
      [Call.TTF_Quit, Call.SDL_GL_DestroyContext self.m_context,
       Call.SDL_DestroyWindow self.m_window, Call.SDL_Quit] := by
  rfl

/-- C8: `Initialize` returns true exactly when both the video subsystem and the text
subsystem report success; when the video subsystem reports failure it returns false, logs
exactly one error and never calls the init of the text subsystem. -/
theorem Initialize_iff (B : Backend) (self : Renderer) :
    ((self.Initialize B).ret = true ↔ (B.SDL_Init SDL_INIT_VIDEO = true ∧ B.TTF_Init = true))
    ∧ (B.SDL_Init SDL_INIT_VIDEO = false →
        (self.Initialize B).ret = false
        ∧ ((self.Initialize B).calls.filter Call.isLogError).length = 1
        ∧ Call.TTF_Init ∉ (self.Initialize B).calls) := by
  unfold Renderer.Initialize
  cases hv : B.SDL_Init SDL_INIT_VIDEO <;> cases ht : B.TTF_Init <;>
    simp [Call.isLogError]

/-- C8, at a backend whose video subsystem fails: false, one error logged, no text init. -/
theorem Initialize_iff_witness :
    (freshRenderer.Initialize noVideoBackend).ret = false
    ∧ ((freshRenderer.Initialize noVideoBackend).calls.filter Call.isLogError).length = 1
    ∧ Call.TTF_Init ∉ (freshRenderer.Initialize noVideoBackend).calls :=
  (Initialize_iff noVideoBackend freshRenderer).2 rfl

/-- C9: `CreateWindow` returns false exactly when window creation or context creation
fails.  When window creation fails its calls are: create window, read the platform error,
log it, quit the windowing subsystem; nothing of the later steps.  When context creation
fails it returns false and, after the attribute and context-creation calls, makes the
same three calls, quitting once, with no function-loading, viewport or depth-test call. -/
theorem CreateWindow_failure (B : Backend) (self : Renderer) (name : String)
    (width height : Int) (fullscreen : Bool) :
    ((self.CreateWindow B name width height fullscreen).ret = false ↔
      (B.SDL_CreateWindow name width height (windowFlags fullscreen) = none
       ∨ B.SDL_GL_CreateContext
           (B.SDL_CreateWindow name width height (windowFlags fullscreen)) = none))
    ∧ (B.SDL_CreateWindow name width height (windowFlags fullscreen) = none →
        (self.CreateWindow B name width height fullscreen).calls =
          [Call.SDL_CreateWindow name width height (windowFlags fullscreen),
           Call.SDL_GetError,
           Call.LOG_ERROR "SDL_CreateWindow Error: \x7b\x7d" B.SDL_GetError,
           Call.SDL_Quit]
        ∧ ∀ c ∈ (self.CreateWindow B name width height fullscreen).calls,
            c.isPastWindow = false)
    ∧ (B.SDL_CreateWindow name width height (windowFlags fullscreen) ≠ none →
       B.SDL_GL_CreateContext
           (B.SDL_CreateWindow name width height (windowFlags fullscreen)) = none →
        (self.CreateWindow B name width height fullscreen).ret = false
        ∧ (self.CreateWindow B name width height fullscreen).calls =
            [Call.SDL_CreateWindow name width height (windowFlags fullscreen),
             Call.SDL_GL_SetAttribute SDL_GLAttr.SDL_GL_CONTEXT_MAJOR_VERSION 4,
             Call.SDL_GL_SetAttribute SDL_GLAttr.SDL_GL_CONTEXT_MINOR_VERSION 6,
             Call.SDL_GL_SetAttribute SDL_GLAttr.SDL_GL_CONTEXT_PROFILE_MASK
               SDL_GL_CONTEXT_PROFILE_COMPATIBILITY,
             Call.SDL_GL_SetAttribute SDL_GLAttr.SDL_GL_DOUBLEBUFFER 1,
             Call.SDL_GL_SetAttribute SDL_GLAttr.SDL_GL_ACCELERATED_VISUAL 1,
             Call.SDL_GL_SetSwapInterval 1,
             Call.SDL_GL_CreateContext
               (B.SDL_CreateWindow name width height (windowFlags fullscreen)),
             Call.SDL_GetError,
             Call.LOG_ERROR "SDL_CreateWindow Error: \x7b\x7d" B.SDL_GetError,
             Call.SDL_Quit]
        ∧ (self.CreateWindow B name width height fullscreen).calls.count Call.SDL_Quit = 1
        ∧ ((self.CreateWindow B name width height fullscreen).calls.filter
            Call.isLogError).length = 1
        ∧ Call.gladLoadGL ∉ (self.CreateWindow B name width height fullscreen).calls
        ∧ ∀ c ∈ (self.CreateWindow B name width height fullscreen).calls,
            c.isViewportOrDepth = false) := by
  cases hw : B.SDL_CreateWindow name width height (windowFlags fullscreen) with
  | none =>
    simp [Renderer.CreateWindow, hw, Call.isPastWindow]
  | some w =>
    cases hc : B.SDL_GL_CreateContext (some w) with
    | none =>
      simp [Renderer.CreateWindow, hw, hc, Call.isLogError, Call.isViewportOrDepth]
    | some c =>
      simp [Renderer.CreateWindow, hw, hc]

/-- C9, at a backend whose window creation fails and at one whose context creation fails. -/
theorem CreateWindow_failure_witness :
    (freshRenderer.CreateWindow noWindowBackend "T" 800 600 false).calls =
      [Call.SDL_CreateWindow "T" 800 600 (windowFlags false),
       Call.SDL_GetError,
       Call.LOG_ERROR "SDL_CreateWindow Error: \x7b\x7d" "no window",
       Call.SDL_Quit]
    ∧ (freshRenderer.CreateWindow noContextBackend "T" 800 600 false).ret = false :=
  ⟨((CreateWindow_failure noWindowBackend freshRenderer "T" 800 600 false).2.1 rfl).1,
   ((CreateWindow_failure noContextBackend freshRenderer "T" 800 600 false).2.2
      (by simp [noContextBackend, okBackend]) rfl).1⟩

/-! ## `Shutdown` after a failed `CreateWindow` -/

/-- C5 (as stated, refuted): after a `CreateWindow` that fails at context creation, and
after one that fails at window creation on a fresh renderer, `Shutdown` does issue a
destroy-context call on the null handle. -/
theorem Shutdown_destroys_null_context :
    (freshRenderer.CreateWindow noContextBackend "T" 800 600 false).ret = false
    ∧ Call.SDL_GL_DestroyContext none ∈
        (freshRenderer.CreateWindow noContextBackend "T" 800 600 false).self.Shutdown.calls
    ∧ (freshRenderer.CreateWindow noWindowBackend "T" 800 600 false).ret = false
    ∧ Call.SDL_GL_DestroyContext none ∈
        (freshRenderer.CreateWindow noWindowBackend "T" 800 600 false).self.Shutdown.calls := by
  simp [Renderer.CreateWindow, Renderer.Shutdown, noContextBackend, noWindowBackend,
    okBackend, freshRenderer]

/-- C5 (amended): after a `CreateWindow` that returned false, `Shutdown` issues exactly one
destroy-context call, unguarded, on the stored context handle: the null handle when
context creation failed, the handle held before the call when window creation failed. -/
theorem Shutdown_after_failed_CreateWindow (B : Backend) (self : Renderer) (name : String)
    (width height : Int) (fullscreen : Bool)
    (hfail : (self.CreateWindow B name width height fullscreen).ret = false) :
    (self.CreateWindow B name width height fullscreen).self.Shutdown.calls.filter
        Call.isDestroyContext =
      [Call.SDL_GL_DestroyContext
        (if B.SDL_CreateWindow name width height (windowFlags fullscreen) = none
          then self.m_context else none)] := by
  cases hw : B.SDL_CreateWindow name width height (windowFlags fullscreen) with
  | none =>
    simp [Renderer.CreateWindow, Renderer.Shutdown, hw, Call.isDestroyContext]
  | some w =>
    cases hc : B.SDL_GL_CreateContext (some w) with
    | none =>
      simp [Renderer.CreateWindow, Renderer.Shutdown, hw, hc, Call.isDestroyContext]
    | some c =>
      simp [Renderer.CreateWindow, hw, hc] at hfail

/-- C5 (amended), at a backend whose context creation fails. -/
theorem Shutdown_after_failed_CreateWindow_witness :
    (freshRenderer.CreateWindow noContextBackend "T" 800 600 false).ret = false
    ∧ (freshRenderer.CreateWindow noContextBackend "T" 800 600 false).self.Shutdown.calls.filter
          Call.isDestroyContext =
        [Call.SDL_GL_DestroyContext
          (if noContextBackend.SDL_CreateWindow "T" 800 600 (windowFlags false) = none
            then freshRenderer.m_context else none)] :=
  ⟨rfl, Shutdown_after_failed_CreateWindow noContextBackend freshRenderer "T" 800 600 false rfl⟩

/-! ## Sequences of `CreateWindow` calls -/

/-- A call that fails at window creation nulls the window and leaves the context as it was. -/
theorem attempt_windowFailed (s : Renderer) (a : Attempt)
    (h : a.outcome = Outcome.windowFailed) :
    (s.attempt a).m_window = none ∧ (s.attempt a).m_context = s.m_context := by
  unfold Attempt.outcome at h
  cases hw : a.backend.SDL_CreateWindow a.name a.width a.height (windowFlags a.fullscreen) with
  | none => simp [Renderer.attempt, Renderer.CreateWindow, hw]
  | some w =>
    rw [hw] at h
    cases hc : a.backend.SDL_GL_CreateContext (some w) <;> simp [hc] at h

/-- A call that fails at context creation keeps the new window and nulls the context. -/
theorem attempt_contextFailed (s : Renderer) (a : Attempt)
    (h : a.outcome = Outcome.contextFailed) :
    (s.attempt a).m_window ≠ none ∧ (s.attempt a).m_context = none := by
  unfold Attempt.outcome at h
  cases hw : a.backend.SDL_CreateWindow a.name a.width a.height (windowFlags a.fullscreen) with
  | none => simp [hw] at h
  | some w =>
    rw [hw] at h
    cases hc : a.backend.SDL_GL_CreateContext (some w) with
    | none => simp [Renderer.attempt, Renderer.CreateWindow, hw, hc]
    | some c => simp [hc] at h

/-- A call that succeeds leaves both handles non-null. -/
theorem attempt_succeeded (s : Renderer) (a : Attempt)
    (h : a.outcome = Outcome.succeeded) :
    (s.attempt a).m_window ≠ none ∧ (s.attempt a).m_context ≠ none := by
  unfold Attempt.outcome at h
  cases hw : a.backend.SDL_CreateWindow a.name a.width a.height (windowFlags a.fullscreen) with
  | none => simp [hw] at h
  | some w =>
    rw [hw] at h
    cases hc : a.backend.SDL_GL_CreateContext (some w) with
    | none => simp [hc] at h
    | some c => simp [Renderer.attempt, Renderer.CreateWindow, hw, hc]

/-- Running one more call after a sequence. -/
theorem attempts_snoc (s : Renderer) (as : List Attempt) (a : Attempt) :
    s.attempts (as ++ [a]) = (s.attempts as).attempt a := by
  simp [Renderer.attempts, List.foldl_append]

/-- The two ways a sequence with a last element can end in a success followed by window
failures. -/
theorem snoc_eq_live {os pre : List Outcome} {o : Outcome} {k : Nat}
    (h : os ++ [o] = pre ++ Outcome.succeeded :: List.replicate k Outcome.windowFailed) :
    (k = 0 ∧ o = Outcome.succeeded ∧ os = pre)
    ∨ (∃ j, k = j + 1 ∧ o = Outcome.windowFailed
        ∧ os = pre ++ Outcome.succeeded :: List.replicate j Outcome.windowFailed) := by
  cases k with
  | zero =>
    left
    have h2 := List.append_inj' (by simpa using h : os ++ [o] = pre ++ [Outcome.succeeded])
      (by simp)
    exact ⟨rfl, by simpa using h2.2, h2.1⟩
  | succ j =>
    right
    have h1 : os ++ [o] =
        (pre ++ Outcome.succeeded :: List.replicate j Outcome.windowFailed)
          ++ [Outcome.windowFailed] := by
      rw [h, List.replicate_succ']; simp
    have h2 := List.append_inj' h1 (by simp)
    exact ⟨j, rfl, by simpa using h2.2, h2.1⟩

/-- Appending one outcome to a sequence: when the result ends in a live context. -/
theorem liveContext_snoc (os : List Outcome) (o : Outcome) :
    LiveContext (os ++ [o]) ↔
      (o = Outcome.succeeded ∨ (o = Outcome.windowFailed ∧ LiveContext os)) := by
  constructor
  · rintro ⟨pre, k, h⟩
    rcases snoc_eq_live h with ⟨_, ho, _⟩ | ⟨j, _, ho, hos⟩
    · exact Or.inl ho
    · exact Or.inr ⟨ho, pre, j, hos⟩
  · rintro (ho | ⟨ho, pre, k, hos⟩)
    · exact ⟨os, 0, by simp [ho]⟩
    · exact ⟨pre, k + 1, by rw [hos, ho, List.replicate_succ']; simp⟩

/-- Appending one outcome to a sequence: when the result ends in a stale context. -/
theorem staleContext_snoc (os : List Outcome) (o : Outcome) :
    StaleContext (os ++ [o]) ↔ (o = Outcome.windowFailed ∧ LiveContext os) := by
  constructor
  · rintro ⟨pre, k, h⟩
    rcases snoc_eq_live h with ⟨hk, _, _⟩ | ⟨j, _, ho, hos⟩
    · omega
    · exact ⟨ho, pre, j, hos⟩
  · rintro ⟨ho, pre, k, hos⟩
    exact ⟨pre, k, by rw [hos, ho, List.replicate_succ']; simp⟩

/-- From a null context, the context handle after a sequence of calls is non-null exactly
when the sequence ends in a success followed by window failures only. -/
theorem context_live_iff (s : Renderer) (hc : s.m_context = none) (as : List Attempt) :
    (s.attempts as).m_context ≠ none ↔ LiveContext (as.map Attempt.outcome) := by
  induction as using List.reverseRecOn with
  | nil =>
    simp [Renderer.attempts, hc, LiveContext]
  | append_singleton as a ih =>
    rw [attempts_snoc, List.map_append, List.map_singleton, liveContext_snoc]
    cases ho : a.outcome with
    | windowFailed =>
      rw [(attempt_windowFailed _ a ho).2, ih]; simp
    | contextFailed =>
      simp [(attempt_contextFailed _ a ho).2]
    | succeeded =>
      simp [(attempt_succeeded _ a ho).2]

/-- C10 (as stated, refuted): from null handles, a successful `CreateWindow` followed by
one that fails at window creation leaves a non-null context with a null window. -/
theorem attempts_break_invariant :
    ¬ (freshRenderer.attempts
        [⟨okBackend, "T", 800, 600, false⟩,
         ⟨noWindowBackend, "T", 800, 600, false⟩]).ContextNeedsWindow := by
  simp [Renderer.ContextNeedsWindow, Renderer.attempts, Renderer.attempt,
    Renderer.CreateWindow, okBackend, noWindowBackend, freshRenderer]

/-- C10 (amended): from a null context handle (so also from null window and context
handles), after any finite sequence of `CreateWindow` calls the context handle is non-null
only if the window handle is non-null, unless the sequence ends in a successful call
followed by one or more calls that fail at window creation; in that case, and only then,
the invariant is broken. -/
theorem attempts_invariant_iff (s : Renderer) (hc : s.m_context = none)
    (as : List Attempt) :
    (s.attempts as).ContextNeedsWindow ↔ ¬ StaleContext (as.map Attempt.outcome) := by
  cases as using List.reverseRecOn with
  | nil =>
    simp [Renderer.attempts, Renderer.ContextNeedsWindow, hc, StaleContext]
  | append_singleton as a =>
    rw [List.map_append, List.map_singleton, staleContext_snoc, attempts_snoc]
    unfold Renderer.ContextNeedsWindow
    cases ho : a.outcome with
    | windowFailed =>
      rw [(attempt_windowFailed _ a ho).1, (attempt_windowFailed _ a ho).2]
      have := context_live_iff s hc as
      simp [← this]
    | contextFailed =>
      simp [(attempt_contextFailed _ a ho).2]
    | succeeded =>
      simp [(attempt_succeeded _ a ho).1]

/-- C10 (amended), at the sequence success, context failure, window failure: the context
is null again, the invariant holds, and the outcomes do not end in a stale context. -/
theorem attempts_invariant_iff_witness :
    freshRenderer.m_context = none
    ∧ ¬ StaleContext
        ([⟨okBackend, "T", 800, 600, false⟩,
          ⟨noContextBackend, "T", 800, 600, false⟩,
          ⟨noWindowBackend, "T", 800, 600, false⟩].map Attempt.outcome) :=
  ⟨rfl, (attempts_invariant_iff freshRenderer rfl _).1 (by
    simp [Renderer.ContextNeedsWindow, Renderer.attempts, Renderer.attempt,
      Renderer.CreateWindow, okBackend, noWindowBackend, noContextBackend, freshRenderer])⟩

end neu
